import Mathlib

/-!
Verification development for officedrone/SimpleConnectivityTester
(src/connectivity-tester.py).

The file shallowly embeds the connectivity core of the program:

* the probe function (Python function _connect_to_host, lines 24-57),
* the CSV task loader (load_tasks, lines 102-107),
* the run registry logic of start_connectivity_check (lines 150-193),
* the dispatch loop run_task_async together with its worker thread
  scan_worker and the Tk after-queue (lines 215-274), as a small-step
  transition system over an explicit FIFO callback queue.

Socket and OS behaviour is abstracted into an environment value that says
what each socket operation does on the probed network; the embedding of
the Python control flow over that environment is literal.  Two ghost
fields (bindAttempted, sockClosed) record resource facts the Python code
does not return but the claims talk about.
-/

set_option autoImplicit false

/-! ### Probe: _connect_to_host (lines 24-57) -/

/-- What happens at the optional sock.bind((source_ip, 0)) call (line 38).
Binding either succeeds or raises an OSError with some message. -/
inductive BindEvent where
  | bindOk : BindEvent
  | bindRaise (msg : String) : BindEvent
deriving DecidableEq, Repr

/-- What happens at code = sock.connect_ex((dest_ip, dest_port)) (line 39).
Per the Python documentation, connect_ex returns the error indicator of the
C-level connect call instead of raising (0 on success, an errno such as
ECONNREFUSED on failure); other problems, for example name resolution
failures or an out-of-range port, still raise exceptions. -/
inductive ConnectEvent where
  /-- connect_ex returned: 0 on success, a nonzero errno on a C-level
  connect failure (refusal, unreachable, and with a socket timeout set
  also the timeout case, surfaced as EAGAIN / WSAEWOULDBLOCK). -/
  | returns (code : Nat) : ConnectEvent
  /-- a socket.timeout exception propagates out of the attempt. -/
  | raiseTimeout : ConnectEvent
  /-- a ConnectionRefusedError exception propagates out of the attempt. -/
  | raiseRefused : ConnectEvent
  /-- any other exception propagates (gaierror, OverflowError, ...);
  msg is the str() of the exception. -/
  | raiseOther (msg : String) : ConnectEvent
deriving DecidableEq, Repr

/-- One network/OS environment for a single probe call: what bind would do,
what the connect attempt does, and the wall-clock milliseconds measured by
the perf_counter pair on the path where connect_ex returns. -/
structure ProbeEnv where
  bind : BindEvent
  connect : ConnectEvent
  elapsedMs : Nat
deriving DecidableEq, Repr

/-- POSIX errno returned by connect_ex when the remote end actively refuses
the connection (Windows returns WSAECONNREFUSED = 10061; either value is a
nonzero return code of connect_ex, which is all the code inspects). -/
def ECONNREFUSED : Nat := 111

/-- Return value of _connect_to_host, plus two ghost fields recording
resource behaviour of the call: whether sock.bind was attempted, and
whether sock.close() ran before the function returned. -/
structure ConnectResult where
  success : Bool
  elapsed_ms : Option Nat
  error_text : String
  bindAttempted : Bool
  sockClosed : Bool
deriving DecidableEq, Repr

/-- Python truthiness of the optional source_ip string: the guard
if source_ip: (line 37) is taken only for a non-None, nonempty string. -/
def pyTruthy : Option String → Bool
  | none => false
  | some s => s != ""

/-- Embedding of _connect_to_host (lines 24-57).  The try block creates the
socket, optionally binds, calls connect_ex, closes the socket, and returns
(code == 0, elapsed_ms, "" or "UNSUCCESSFUL"); each except branch returns
without reaching sock.close(). -/
def _connect_to_host (source_ip : Option String) (env : ProbeEnv) : ConnectResult :=
  if pyTruthy source_ip then
    match env.bind with
    | .bindRaise msg =>
        -- except Exception branch (lines 55-57): sock never closed
        ⟨false, none, "Error: " ++ msg, true, false⟩
    | .bindOk =>
        match env.connect with
        | .returns code =>
            ⟨code == 0, some env.elapsedMs,
              if code == 0 then "" else "UNSUCCESSFUL", true, true⟩
        | .raiseTimeout => ⟨false, none, "Connection timed out", true, false⟩
        | .raiseRefused => ⟨false, none, "Connection refused by remote host", true, false⟩
        | .raiseOther msg => ⟨false, none, "Error: " ++ msg, true, false⟩
  else
    match env.connect with
    | .returns code =>
        ⟨code == 0, some env.elapsedMs,
          if code == 0 then "" else "UNSUCCESSFUL", false, true⟩
    | .raiseTimeout => ⟨false, none, "Connection timed out", false, false⟩
    | .raiseRefused => ⟨false, none, "Connection refused by remote host", false, false⟩
    | .raiseOther msg => ⟨false, none, "Error: " ++ msg, false, false⟩

/-- The environment of a probe against a closed port on a reachable host:
the C-level connect fails with ECONNREFUSED, which connect_ex returns as a
nonzero code (it does not raise ConnectionRefusedError). -/
def refusedEnv (e : Nat) : ProbeEnv := ⟨.bindOk, .returns ECONNREFUSED, e⟩

/-- The environment of a probe whose port is outside 0-65535: CPython
raises OverflowError at the connect_ex call before any C-level connect. -/
def invalidPortEnv (e : Nat) : ProbeEnv :=
  ⟨.bindOk, .raiseOther "port must be 0-65535.", e⟩

/-- True exactly on the exit path where the try block runs to completion,
i.e. bind (when attempted) does not raise and connect_ex returns a code. -/
def normalExit (source_ip : Option String) (env : ProbeEnv) : Bool :=
  (!(pyTruthy source_ip) || decide (env.bind = .bindOk)) &&
    (match env.connect with
     | .returns _ => true
     | _ => false)

/-! ### Task loading: load_tasks (lines 102-107) -/

/-- One CSV row as seen by csv.DictReader: the three columns the code
reads.  The Port column is a raw string, converted with int(). -/
structure CsvRow where
  description : String
  ip : String
  port : String
deriving DecidableEq, Repr

/-- One task tuple (desc, ip, port) as built by load_tasks.  Named
ProbeTask here because Task is taken by the Lean core library. -/
structure ProbeTask where
  desc : String
  host : String
  port : Int
deriving DecidableEq, Repr

/-- Accumulate decimal digits; any non-digit character makes the parse
fail. -/
def parseNatAux : List Char → Nat → Option Nat
  | [], acc => some acc
  | c :: cs, acc =>
      if c.isDigit then parseNatAux cs (acc * 10 + (c.toNat - 48))
      else none

/-- Model of the Python int() conversion on a column string: an optional
sign followed by one or more decimal digits parses to its value, anything
else raises ValueError.  Except.error is the raised exception. -/
def pyInt (s : String) : Except String Int :=
  let core : Option Int :=
    match s.data with
    | [] => none
    | '-' :: rest =>
        match rest with
        | [] => none
        | _ => (parseNatAux rest 0).map fun n => -(n : Int)
    | cs => (parseNatAux cs 0).map fun n => (n : Int)
  match core with
  | some n => .ok n
  | none => .error ("invalid literal for int() with base 10: " ++ s)

/-- Embedding of load_tasks (lines 102-107): the loop appends one
(Description, IP, int(Port)) tuple per row, in row order; the first
failing int() conversion raises out of the function.  No range check is
performed on the port. -/
def load_tasks : List CsvRow → Except String (List ProbeTask)
  | [] => .ok []
  | r :: rest => do
      let p ← pyInt r.port
      let ts ← load_tasks rest
      pure (⟨r.description, r.ip, p⟩ :: ts)

/-! ### Run registry: start_connectivity_check (lines 150-171) -/

/-- The registry-relevant observable state of a ConnectivityRun entry in
the global runs dictionary: its stop_flag (set by ConnectivityRun.stop,
line 19-20), plus a ghost bit recording whether the dispatch loop of that
run has fully halted (no worker thread live and no continuation pending).
The Python code stores no such bit; it is the observation needed to state
the RunState of the spec. -/
structure RegEntry where
  stop_flag : Bool
  halted : Bool
deriving DecidableEq, Repr

/-- The run states named by the spec, section 3. -/
inductive RunState where
  | Running : RunState
  | Stopping : RunState
  | Stopped : RunState
deriving DecidableEq, Repr

/-- Modelled from the spec (section 3): a run is Running until a stop is
requested, Stopping once a stop is requested while dispatch has not yet
halted, and Stopped once no further dispatch can occur. -/
def specRunState (e : RegEntry) : RunState :=
  if e.stop_flag = false then .Running
  else if e.halted then .Stopped else .Stopping

/-- What start_connectivity_check does at its entry for the requested key. -/
inductive StartAction where
  /-- A fresh ConnectivityRun was created and stored in runs[tree] now. -/
  | registerNow : StartAction
  /-- stop() was called on the existing entry and a re-invocation of
  start_connectivity_check was scheduled after delayMs milliseconds. -/
  | stopAndRetry (delayMs : Nat) : StartAction
deriving DecidableEq, Repr

/-- A freshly constructed ConnectivityRun (lines 10-17): stop_flag False,
dispatch not halted (the run is about to start). -/
def freshEntry : RegEntry := ⟨false, false⟩

/-- Embedding of the registry step of start_connectivity_check
(lines 156-171): if the key has an entry whose stop_flag is unset, call
stop() on it and schedule a retry after 100 ms; otherwise build a new run
and store it under the key immediately.  Returns the new registry value
for the key and which action was taken. -/
def start_connectivity_check (existing : Option RegEntry) :
    Option RegEntry × StartAction :=
  match existing with
  | some e =>
      if !e.stop_flag then
        (some { e with stop_flag := true }, .stopAndRetry 100)
      else
        (some freshEntry, .registerNow)
  | none => (some freshEntry, .registerNow)

/-! ### Dispatch loop: run_task_async and scan_worker (lines 215-274)

The loop is driven by two execution contexts: the Tk main thread, which
processes the after-queue of scheduled callbacks in FIFO order, and one
worker thread at a time running scan_worker.  Every callback the code
schedules is appended to the queue; because the item scheduled with the
inter-task delay (clamped to be non-negative, line 263) is always enqueued
after every earlier item with deadline at or before its own, FIFO
processing of the queue coincides with deadline order.  A stop request
(ConnectivityRun.stop, triggered by stop_running_tests) can interleave at
any step.  Window teardown is not modelled: treeExists stays true. -/

/-- Per-run configuration: the loaded task list, the source IP handed to
every probe, one ProbeEnv per task index describing what the network does
for that probe, and the user-chosen inter-task delay. -/
structure RunCfg where
  tasks : List ProbeTask
  source_ip : Option String
  envs : Nat → ProbeEnv
  delay_ms : Int

/-- Clamped inter-task delay, next_delay = max(0, int(delay_ms))
(line 263). -/
def next_delay (cfg : RunCfg) : Int := max 0 cfg.delay_ms

/-- The status text computed by scan_worker for task index i (line 242):
SUCCESSFUL (<ms> ms) on success, otherwise the error text of the probe. -/
def statusOf (cfg : RunCfg) (i : Nat) : String :=
  let r := _connect_to_host cfg.source_ip (cfg.envs i)
  if r.success then
    "SUCCESSFUL (" ++ (match r.elapsed_ms with
      | some n => toString n
      | none => "None") ++ " ms)"
  else r.error_text

/-- The mutable fields of ConnectivityRun the loop touches: index
(progress tracking, line 220) and stop_flag (lines 15, 19-20). -/
structure RunRec where
  index : Nat
  stop_flag : Bool
deriving DecidableEq, Repr

/-- An entry of the Tk after-queue created by the loop:
setTesting from tree.after(0, set_testing) (line 236),
updateUI from tree.after(0, update_ui) (line 259) carrying the status
text already computed on the worker thread, and
runTask from tree.after(next_delay, ... run_task_async(index+1) ...)
(lines 264-270). -/
inductive Pending where
  | setTesting (i : Nat) : Pending
  | updateUI (i : Nat) (status : String) : Pending
  | runTask (i : Nat) : Pending
deriving DecidableEq, Repr

/-- Progress of the single live scan_worker thread for task index i:
atStart = about to schedule set_testing; probing = set_testing scheduled,
blocked in _connect_to_host; reporting = probe returned, about to schedule
update_ui; scheduling = update_ui scheduled, about to consult stop_flag
and maybe schedule the next run_task_async. -/
inductive WPhase where
  | atStart (i : Nat) : WPhase
  | probing (i : Nat) : WPhase
  | reporting (i : Nat) : WPhase
  | scheduling (i : Nat) : WPhase
deriving DecidableEq, Repr

/-- A notification delivered to the result surface (the Treeview rows):
started i is the row-i Testing marking done by set_testing; result i st is
the row-i update to the probe outcome text done by update_ui. -/
inductive Notif where
  | started (i : Nat) : Notif
  | result (i : Nat) (status : String) : Notif
deriving DecidableEq, Repr

/-- Global state of one run: the ConnectivityRun record, the FIFO
after-queue, the live worker thread (if any), the notifications delivered
so far, whether the Treeview still exists, and a ghost trace of the
indices actually dispatched by run_task_async (in dispatch order). -/
structure SysState where
  run : RunRec
  queue : List Pending
  worker : Option WPhase
  notifs : List Notif
  treeExists : Bool
  dispatched : List Nat
deriving DecidableEq, Repr

/-- Embedding of the entry of run_task_async (lines 215-221 and 272-274):
bail out if the run is stopped or the index is past the task list,
otherwise record progress in run.index and start a scan_worker thread for
the index.  The ghost dispatched trace records the dispatch. -/
def run_task_async (cfg : RunCfg) (i : Nat) (s : SysState) : SysState :=
  if s.run.stop_flag || decide (cfg.tasks.length ≤ i) then s
  else
    { s with
      run := { s.run with index := i },
      worker := some (.atStart i),
      dispatched := s.dispatched ++ [i] }

/-- One step of the live scan_worker thread (lines 222-270), if any:
schedule set_testing, complete the blocking probe, schedule update_ui
(unconditionally - update_ui itself checks only that the widget exists),
then consult stop_flag and schedule the next run_task_async only when no
stop was requested. -/
def workerStep (cfg : RunCfg) (s : SysState) : SysState :=
  match s.worker with
  | none => s
  | some (.atStart i) =>
      { s with queue := s.queue ++ [.setTesting i], worker := some (.probing i) }
  | some (.probing i) =>
      { s with worker := some (.reporting i) }
  | some (.reporting i) =>
      { s with queue := s.queue ++ [.updateUI i (statusOf cfg i)],
               worker := some (.scheduling i) }
  | some (.scheduling i) =>
      if s.run.stop_flag then { s with worker := none }
      else { s with queue := s.queue ++ [.runTask (i + 1)], worker := none }

/-- The Tk main thread processing the head of the after-queue:
set_testing (lines 226-235) marks the row Testing unless stop_flag is set;
update_ui (lines 246-258) writes the result text whenever the widget still
exists - it does not consult stop_flag; a queued run_task_async call runs
its entry logic. -/
def uiStep (cfg : RunCfg) (s : SysState) : SysState :=
  match s.queue with
  | [] => s
  | p :: rest =>
      match p with
      | .setTesting i =>
          if s.run.stop_flag then { s with queue := rest }
          else { s with queue := rest, notifs := s.notifs ++ [.started i] }
      | .updateUI i st =>
          if s.treeExists then
            { s with queue := rest, notifs := s.notifs ++ [.result i st] }
          else { s with queue := rest }
      | .runTask i => run_task_async cfg i { s with queue := rest }

/-- The three interleavable actions: a main-thread queue-processing step,
a worker-thread step, and a stop request (ConnectivityRun.stop setting
stop_flag, lines 19-20, as invoked by stop_running_tests, line 567). -/
inductive Act where
  | ui : Act
  | worker : Act
  | stopReq : Act
deriving DecidableEq, Repr

/-- One interleaving step of the whole system. -/
def step (cfg : RunCfg) (a : Act) (s : SysState) : SysState :=
  match a with
  | .ui => uiStep cfg s
  | .worker => workerStep cfg s
  | .stopReq => { s with run := { s.run with stop_flag := true } }

/-- Run a list of interleaving choices from a state. -/
def execFrom (cfg : RunCfg) (s : SysState) (sched : List Act) : SysState :=
  sched.foldl (fun t a => step cfg a t) s

/-- The state right after start_connectivity_check registered a fresh run
and called run_task_async(tasks, tree, 0, ...) synchronously (line 193):
a fresh ConnectivityRun (index 0, stop_flag False, lines 10-17), empty
queue, no notifications, widget alive. -/
def initState (cfg : RunCfg) : SysState :=
  run_task_async cfg 0 ⟨⟨0, false⟩, [], none, [], true, []⟩

/-- Execute a schedule from the initial state of a run. -/
def exec (cfg : RunCfg) (sched : List Act) : SysState :=
  execFrom cfg (initState cfg) sched

/-- The canonical notification trace for the first n tasks: started and
result for index 0, then for index 1, and so on. -/
def canonTrace (cfg : RunCfg) : Nat → List Notif
  | 0 => []
  | n + 1 => canonTrace cfg n ++ [.started n, .result n (statusOf cfg n)]

/-- The indices of the started notifications of a trace, in order. -/
def startedOf (l : List Notif) : List Nat :=
  l.filterMap fun n => match n with
    | .started i => some i
    | .result _ _ => none

/-- The seven-step schedule that carries one task from its dispatch to the
dispatch of the next: four worker steps, then processing of set_testing,
update_ui, and the queued run_task_async. -/
def taskBlock : List Act :=
  [.worker, .worker, .worker, .worker, .ui, .ui, .ui]

/-- A schedule that fully drains a run of n tasks with no stop request. -/
def fullSched (n : Nat) : List Act :=
  (List.replicate n taskBlock).flatten

/-- A schedule in which the stop request arrives while the probe of task 0
is in flight: the worker has scheduled set_testing and is blocked in
_connect_to_host when stop_flag is set; afterwards the worker completes
and the queue is drained. -/
def stopMidProbeSched : List Act :=
  [.worker, .ui, .stopReq, .worker, .worker, .worker, .ui]

/-! ### Reachable-state shapes of a run with no stop request

With no stop request the system moves through a cycle of twelve
configuration shapes per task index.  The shapes below name them; the
invariant NoStopInv says every reachable state is one of them. -/

/-- Shape A: task i just dispatched, worker about to schedule
set_testing. -/
def shapeA (cfg : RunCfg) (i : Nat) : SysState :=
  ⟨⟨i, false⟩, [], some (.atStart i), canonTrace cfg i, true, List.range (i + 1)⟩

/-- Shape B1: probe of task i in flight, its set_testing still queued. -/
def shapeB1 (cfg : RunCfg) (i : Nat) : SysState :=
  ⟨⟨i, false⟩, [.setTesting i], some (.probing i), canonTrace cfg i, true,
    List.range (i + 1)⟩

/-- Shape B2: probe of task i in flight, Testing marking delivered. -/
def shapeB2 (cfg : RunCfg) (i : Nat) : SysState :=
  ⟨⟨i, false⟩, [], some (.probing i),
    canonTrace cfg i ++ [.started i], true, List.range (i + 1)⟩

/-- Shape C1: probe of task i returned, set_testing still queued. -/
def shapeC1 (cfg : RunCfg) (i : Nat) : SysState :=
  ⟨⟨i, false⟩, [.setTesting i], some (.reporting i), canonTrace cfg i, true,
    List.range (i + 1)⟩

/-- Shape C2: probe of task i returned, Testing marking delivered. -/
def shapeC2 (cfg : RunCfg) (i : Nat) : SysState :=
  ⟨⟨i, false⟩, [], some (.reporting i),
    canonTrace cfg i ++ [.started i], true, List.range (i + 1)⟩

/-- Shape D1: update_ui for task i queued behind its set_testing. -/
def shapeD1 (cfg : RunCfg) (i : Nat) : SysState :=
  ⟨⟨i, false⟩, [.setTesting i, .updateUI i (statusOf cfg i)],
    some (.scheduling i), canonTrace cfg i, true, List.range (i + 1)⟩

/-- Shape D2: update_ui for task i queued, Testing marking delivered. -/
def shapeD2 (cfg : RunCfg) (i : Nat) : SysState :=
  ⟨⟨i, false⟩, [.updateUI i (statusOf cfg i)], some (.scheduling i),
    canonTrace cfg i ++ [.started i], true, List.range (i + 1)⟩

/-- Shape D3: result of task i delivered while the worker has not yet
scheduled the next run_task_async. -/
def shapeD3 (cfg : RunCfg) (i : Nat) : SysState :=
  ⟨⟨i, false⟩, [], some (.scheduling i), canonTrace cfg (i + 1), true,
    List.range (i + 1)⟩

/-- Shape E1: worker finished; set_testing, update_ui and the next
run_task_async are all queued. -/
def shapeE1 (cfg : RunCfg) (i : Nat) : SysState :=
  ⟨⟨i, false⟩,
    [.setTesting i, .updateUI i (statusOf cfg i), .runTask (i + 1)],
    none, canonTrace cfg i, true, List.range (i + 1)⟩

/-- Shape E2: as E1 with the Testing marking delivered. -/
def shapeE2 (cfg : RunCfg) (i : Nat) : SysState :=
  ⟨⟨i, false⟩, [.updateUI i (statusOf cfg i), .runTask (i + 1)], none,
    canonTrace cfg i ++ [.started i], true, List.range (i + 1)⟩

/-- Shape E3: task i fully reported, only the queued run_task_async for
i + 1 remains. -/
def shapeE3 (cfg : RunCfg) (i : Nat) : SysState :=
  ⟨⟨i, false⟩, [.runTask (i + 1)], none, canonTrace cfg (i + 1), true,
    List.range (i + 1)⟩

/-- Shape F: the terminal quiescent state of a run that was never stopped:
every task reported, index frozen at the last dispatched index
(len(tasks) - 1, or 0 for an empty task list), stop_flag still unset. -/
def shapeF (cfg : RunCfg) : SysState :=
  ⟨⟨cfg.tasks.length - 1, false⟩, [], none,
    canonTrace cfg cfg.tasks.length, true, List.range cfg.tasks.length⟩

/-- The invariant of executions with no stop request: every reachable
state is the terminal shape or one of the eleven mid-cycle shapes for a
live task index. -/
def NoStopInv (cfg : RunCfg) (s : SysState) : Prop :=
  s = shapeF cfg ∨ ∃ i, i < cfg.tasks.length ∧
    (s = shapeA cfg i ∨ s = shapeB1 cfg i ∨ s = shapeB2 cfg i ∨
     s = shapeC1 cfg i ∨ s = shapeC2 cfg i ∨ s = shapeD1 cfg i ∨
     s = shapeD2 cfg i ∨ s = shapeD3 cfg i ∨ s = shapeE1 cfg i ∨
     s = shapeE2 cfg i ∨ s = shapeE3 cfg i)

/-- Invariant tying the progress field to the ghost dispatch trace:
run.index always equals the most recently dispatched index (0 before any
dispatch, matching the initial value of ConnectivityRun.index). -/
def idxInv (s : SysState) : Prop :=
  s.run.index = s.dispatched.getLast?.getD 0

/-! ### Concrete example configurations used in closed theorems -/

/-- One task probing a closed port on the loopback interface; the OS
answers with an RST, so connect_ex returns ECONNREFUSED after 5 ms. -/
def cfgRefused : RunCfg :=
  ⟨[⟨"web", "127.0.0.1", 9⟩], none, fun _ => refusedEnv 5, 100⟩

/-- Two tasks with a bound source interface: the first connects in 12 ms,
the second is refused after 7 ms; zero inter-task delay. -/
def cfgTwo : RunCfg :=
  ⟨[⟨"a", "10.0.0.1", 80⟩, ⟨"b", "10.0.0.2", 443⟩], some "192.168.0.5",
    fun i => if i = 0 then ⟨.bindOk, .returns 0, 12⟩ else refusedEnv 7, 0⟩

/-! ### Helper lemmas -/

theorem canonTrace_prefix_succ (cfg : RunCfg) (n : Nat) :
    canonTrace cfg n <+: canonTrace cfg (n + 1) :=
  ⟨[.started n, .result n (statusOf cfg n)], rfl⟩

theorem canonTrace_prefix_le (cfg : RunCfg) {m n : Nat} (h : m ≤ n) :
    canonTrace cfg m <+: canonTrace cfg n := by
  induction n with
  | zero =>
    have : m = 0 := Nat.le_zero.mp h
    subst this; exact List.prefix_refl _
  | succ k ih =>
    rcases Nat.lt_or_ge m (k + 1) with h2 | h2
    · exact (ih (Nat.lt_succ_iff.mp h2)).trans (canonTrace_prefix_succ cfg k)
    · have : m = k + 1 := Nat.le_antisymm h h2
      subst this; exact List.prefix_refl _

theorem canonTrace_prefix_mid (cfg : RunCfg) (i : Nat) :
    canonTrace cfg i ++ [Notif.started i] <+: canonTrace cfg (i + 1) :=
  ⟨[.result i (statusOf cfg i)], by simp [canonTrace]⟩

theorem noStopInv_step (cfg : RunCfg) (a : Act) (ha : a ≠ Act.stopReq)
    (s : SysState) (h : NoStopInv cfg s) : NoStopInv cfg (step cfg a s) := by
  rcases h with h | ⟨i, hi, h⟩
  · subst h
    cases a with
    | stopReq => exact absurd rfl ha
    | ui => exact Or.inl rfl
    | worker => exact Or.inl rfl
  · cases a with
    | stopReq => exact absurd rfl ha
    | worker =>
      rcases h with h|h|h|h|h|h|h|h|h|h|h <;> subst h
      · -- A: schedule set_testing, start probing
        exact Or.inr ⟨i, hi, Or.inr (Or.inl rfl)⟩
      · -- B1: probe completes
        exact Or.inr ⟨i, hi, Or.inr (Or.inr (Or.inr (Or.inl rfl)))⟩
      · -- B2: probe completes
        exact Or.inr ⟨i, hi, Or.inr (Or.inr (Or.inr (Or.inr (Or.inl rfl))))⟩
      · -- C1: schedule update_ui
        exact Or.inr ⟨i, hi,
          Or.inr (Or.inr (Or.inr (Or.inr (Or.inr (Or.inl rfl)))))⟩
      · -- C2: schedule update_ui
        exact Or.inr ⟨i, hi,
          Or.inr (Or.inr (Or.inr (Or.inr (Or.inr (Or.inr (Or.inl rfl))))))⟩
      · -- D1: stop_flag unset, schedule next run_task_async
        exact Or.inr ⟨i, hi,
          Or.inr (Or.inr (Or.inr (Or.inr (Or.inr (Or.inr (Or.inr (Or.inr
            (Or.inl rfl))))))))⟩
      · -- D2: stop_flag unset, schedule next run_task_async
        exact Or.inr ⟨i, hi,
          Or.inr (Or.inr (Or.inr (Or.inr (Or.inr (Or.inr (Or.inr (Or.inr
            (Or.inr (Or.inl rfl)))))))))⟩
      · -- D3: stop_flag unset, schedule next run_task_async
        exact Or.inr ⟨i, hi,
          Or.inr (Or.inr (Or.inr (Or.inr (Or.inr (Or.inr (Or.inr (Or.inr
            (Or.inr (Or.inr rfl)))))))))⟩
      · -- E1: no worker, nothing to do
        exact Or.inr ⟨i, hi,
          Or.inr (Or.inr (Or.inr (Or.inr (Or.inr (Or.inr (Or.inr (Or.inr
            (Or.inl rfl))))))))⟩
      · -- E2: no worker, nothing to do
        exact Or.inr ⟨i, hi,
          Or.inr (Or.inr (Or.inr (Or.inr (Or.inr (Or.inr (Or.inr (Or.inr
            (Or.inr (Or.inl rfl)))))))))⟩
      · -- E3: no worker, nothing to do
        exact Or.inr ⟨i, hi,
          Or.inr (Or.inr (Or.inr (Or.inr (Or.inr (Or.inr (Or.inr (Or.inr
            (Or.inr (Or.inr rfl)))))))))⟩
    | ui =>
      rcases h with h|h|h|h|h|h|h|h|h|h|h <;> subst h
      · -- A: empty queue
        exact Or.inr ⟨i, hi, Or.inl rfl⟩
      · -- B1: deliver the Testing marking
        exact Or.inr ⟨i, hi, Or.inr (Or.inr (Or.inl rfl))⟩
      · -- B2: empty queue
        exact Or.inr ⟨i, hi, Or.inr (Or.inr (Or.inl rfl))⟩
      · -- C1: deliver the Testing marking
        exact Or.inr ⟨i, hi, Or.inr (Or.inr (Or.inr (Or.inr (Or.inl rfl))))⟩
      · -- C2: empty queue
        exact Or.inr ⟨i, hi, Or.inr (Or.inr (Or.inr (Or.inr (Or.inl rfl))))⟩
      · -- D1: deliver the Testing marking
        exact Or.inr ⟨i, hi,
          Or.inr (Or.inr (Or.inr (Or.inr (Or.inr (Or.inr (Or.inl rfl))))))⟩
      · -- D2: deliver the result
        have e : step cfg Act.ui (shapeD2 cfg i) = shapeD3 cfg i := by
          simp [step, uiStep, shapeD2, shapeD3, canonTrace]
        rw [e]
        exact Or.inr ⟨i, hi,
          Or.inr (Or.inr (Or.inr (Or.inr (Or.inr (Or.inr (Or.inr
            (Or.inl rfl)))))))⟩
      · -- D3: empty queue
        exact Or.inr ⟨i, hi,
          Or.inr (Or.inr (Or.inr (Or.inr (Or.inr (Or.inr (Or.inr
            (Or.inl rfl)))))))⟩
      · -- E1: deliver the Testing marking
        exact Or.inr ⟨i, hi,
          Or.inr (Or.inr (Or.inr (Or.inr (Or.inr (Or.inr (Or.inr (Or.inr
            (Or.inr (Or.inl rfl)))))))))⟩
      · -- E2: deliver the result
        have e : step cfg Act.ui (shapeE2 cfg i) = shapeE3 cfg i := by
          simp [step, uiStep, shapeE2, shapeE3, canonTrace]
        rw [e]
        exact Or.inr ⟨i, hi,
          Or.inr (Or.inr (Or.inr (Or.inr (Or.inr (Or.inr (Or.inr (Or.inr
            (Or.inr (Or.inr rfl)))))))))⟩
      · -- E3: run the queued run_task_async for i + 1
        by_cases hN : cfg.tasks.length ≤ i + 1
        · have h2 : cfg.tasks.length = i + 1 := by omega
          have e : step cfg Act.ui (shapeE3 cfg i) = shapeF cfg := by
            simp [step, uiStep, run_task_async, shapeE3, shapeF, h2]
          rw [e]; exact Or.inl rfl
        · have e : step cfg Act.ui (shapeE3 cfg i) = shapeA cfg (i + 1) := by
            simp [step, uiStep, run_task_async, shapeE3, shapeA, hN,
              List.range_succ]
          rw [e]; exact Or.inr ⟨i + 1, by omega, Or.inl rfl⟩

theorem noStopInv_execFrom (cfg : RunCfg) (sched : List Act) :
    Act.stopReq ∉ sched → ∀ s, NoStopInv cfg s →
    NoStopInv cfg (execFrom cfg s sched) := by
  induction sched with
  | nil => intro _ s h; exact h
  | cons a rest ih =>
    intro hs s h
    have ha : a ≠ Act.stopReq := fun e => hs (by rw [e]; exact List.mem_cons_self _ _)
    have hrest : Act.stopReq ∉ rest := fun hm => hs (List.mem_cons_of_mem _ hm)
    exact ih hrest (step cfg a s) (noStopInv_step cfg a ha s h)

theorem initState_zero (cfg : RunCfg) (h : cfg.tasks.length = 0) :
    initState cfg = shapeF cfg := by
  simp [initState, run_task_async, shapeF, h, canonTrace]

theorem initState_pos (cfg : RunCfg) (h : 0 < cfg.tasks.length) :
    initState cfg = shapeA cfg 0 := by
  have h2 : ¬ (cfg.tasks.length ≤ 0) := by omega
  simp [initState, run_task_async, shapeA, h2, canonTrace, List.range_succ]

theorem noStopInv_init (cfg : RunCfg) : NoStopInv cfg (initState cfg) := by
  by_cases h : cfg.tasks.length = 0
  · rw [initState_zero cfg h]; exact Or.inl rfl
  · rw [initState_pos cfg (Nat.pos_of_ne_zero h)]
    exact Or.inr ⟨0, Nat.pos_of_ne_zero h, Or.inl rfl⟩

theorem noStopInv_notifs_le (cfg : RunCfg) (s : SysState) (h : NoStopInv cfg s) :
    s.notifs <+: canonTrace cfg cfg.tasks.length := by
  rcases h with h | ⟨i, hi, h⟩
  · subst h; exact List.prefix_refl _
  · have hi1 : i + 1 ≤ cfg.tasks.length := hi
    rcases h with h|h|h|h|h|h|h|h|h|h|h <;> subst h
    · exact canonTrace_prefix_le cfg (Nat.le_of_lt hi)
    · exact canonTrace_prefix_le cfg (Nat.le_of_lt hi)
    · exact (canonTrace_prefix_mid cfg i).trans (canonTrace_prefix_le cfg hi1)
    · exact canonTrace_prefix_le cfg (Nat.le_of_lt hi)
    · exact (canonTrace_prefix_mid cfg i).trans (canonTrace_prefix_le cfg hi1)
    · exact canonTrace_prefix_le cfg (Nat.le_of_lt hi)
    · exact (canonTrace_prefix_mid cfg i).trans (canonTrace_prefix_le cfg hi1)
    · exact canonTrace_prefix_le cfg hi1
    · exact canonTrace_prefix_le cfg (Nat.le_of_lt hi)
    · exact (canonTrace_prefix_mid cfg i).trans (canonTrace_prefix_le cfg hi1)
    · exact canonTrace_prefix_le cfg hi1

theorem execFrom_append (cfg : RunCfg) (s : SysState) (l1 l2 : List Act) :
    execFrom cfg s (l1 ++ l2) = execFrom cfg (execFrom cfg s l1) l2 := by
  simp [execFrom, List.foldl_append]

theorem taskBlock_mid (cfg : RunCfg) {i : Nat} (h : i + 1 < cfg.tasks.length) :
    execFrom cfg (shapeA cfg i) taskBlock = shapeA cfg (i + 1) := by
  have h2 : ¬ (cfg.tasks.length ≤ i + 1) := by omega
  simp [execFrom, taskBlock, step, workerStep, uiStep, run_task_async,
    shapeA, canonTrace, h2, List.range_succ]

theorem taskBlock_last (cfg : RunCfg) {i : Nat}
    (h2 : cfg.tasks.length = i + 1) :
    execFrom cfg (shapeA cfg i) taskBlock = shapeF cfg := by
  simp [execFrom, taskBlock, step, workerStep, uiStep, run_task_async,
    shapeA, shapeF, canonTrace, h2]

theorem fullSched_execFrom (cfg : RunCfg) :
    ∀ k i, i + k = cfg.tasks.length → i < cfg.tasks.length →
    execFrom cfg (shapeA cfg i) (fullSched k) = shapeF cfg := by
  intro k
  induction k with
  | zero => intro i he hi; omega
  | succ k ih =>
    intro i he hi
    have hsp : fullSched (k + 1) = taskBlock ++ fullSched k := by
      simp [fullSched, List.replicate_succ]
    rw [hsp, execFrom_append]
    by_cases h2 : i + 1 < cfg.tasks.length
    · rw [taskBlock_mid cfg h2]
      exact ih (i + 1) (by omega) h2
    · have h3 : cfg.tasks.length = i + 1 := by omega
      have hk : k = 0 := by omega
      subst hk
      rw [taskBlock_last cfg h3]
      rfl

theorem exec_fullSched (cfg : RunCfg) :
    exec cfg (fullSched cfg.tasks.length) = shapeF cfg := by
  by_cases h : cfg.tasks.length = 0
  · rw [exec, execFrom, h]
    simp [fullSched, List.foldl_nil]
    exact initState_zero cfg h
  · have hp : 0 < cfg.tasks.length := Nat.pos_of_ne_zero h
    rw [exec, initState_pos cfg hp]
    exact fullSched_execFrom cfg _ 0 (by omega) hp

theorem workerStep_run (cfg : RunCfg) (s : SysState) :
    (workerStep cfg s).run = s.run := by
  cases hw : s.worker with
  | none => simp [workerStep, hw]
  | some p =>
    cases p <;> simp [workerStep, hw]
    split <;> rfl

theorem workerStep_notifs (cfg : RunCfg) (s : SysState) :
    (workerStep cfg s).notifs = s.notifs := by
  cases hw : s.worker with
  | none => simp [workerStep, hw]
  | some p =>
    cases p <;> simp [workerStep, hw]
    split <;> rfl

theorem workerStep_dispatched (cfg : RunCfg) (s : SysState) :
    (workerStep cfg s).dispatched = s.dispatched := by
  cases hw : s.worker with
  | none => simp [workerStep, hw]
  | some p =>
    cases p <;> simp [workerStep, hw]
    split <;> rfl

theorem startedOf_append_result (l : List Notif) (i : Nat) (st : String) :
    startedOf (l ++ [Notif.result i st]) = startedOf l := by
  simp [startedOf, List.filterMap_append]

theorem step_stopped (cfg : RunCfg) (a : Act) (s : SysState)
    (h : s.run.stop_flag = true) :
    (step cfg a s).run = s.run ∧ (step cfg a s).dispatched = s.dispatched ∧
    startedOf (step cfg a s).notifs = startedOf s.notifs := by
  cases a with
  | stopReq =>
    refine ⟨?_, rfl, rfl⟩
    show { s.run with stop_flag := true } = s.run
    rcases hr : s.run with ⟨idx, flag⟩
    rw [hr] at h; simp at h; simp [h]
  | worker =>
    show (workerStep cfg s).run = s.run ∧
      (workerStep cfg s).dispatched = s.dispatched ∧
      startedOf (workerStep cfg s).notifs = startedOf s.notifs
    exact ⟨workerStep_run cfg s, workerStep_dispatched cfg s,
      by rw [workerStep_notifs cfg s]⟩
  | ui =>
    show (uiStep cfg s).run = s.run ∧
      (uiStep cfg s).dispatched = s.dispatched ∧
      startedOf (uiStep cfg s).notifs = startedOf s.notifs
    cases hq : s.queue with
    | nil => simp [uiStep, hq]
    | cons p rest =>
      cases p with
      | setTesting i => simp [uiStep, hq, h]
      | updateUI i st =>
        by_cases ht : s.treeExists
        · simp [uiStep, hq, ht, startedOf_append_result]
        · simp [uiStep, hq, ht]
      | runTask i =>
        simp [uiStep, hq, run_task_async, h]

theorem execFrom_stopped (cfg : RunCfg) (sched : List Act) :
    ∀ s : SysState, s.run.stop_flag = true →
    (execFrom cfg s sched).run = s.run ∧
    (execFrom cfg s sched).dispatched = s.dispatched ∧
    startedOf (execFrom cfg s sched).notifs = startedOf s.notifs := by
  induction sched with
  | nil => intro s _; exact ⟨rfl, rfl, rfl⟩
  | cons a rest ih =>
    intro s h
    have hs := step_stopped cfg a s h
    have hflag : (step cfg a s).run.stop_flag = true := by rw [hs.1]; exact h
    have ht := ih (step cfg a s) hflag
    exact ⟨ht.1.trans hs.1, ht.2.1.trans hs.2.1, ht.2.2.trans hs.2.2⟩

theorem idxInv_step (cfg : RunCfg) (a : Act) (s : SysState)
    (h : idxInv s) : idxInv (step cfg a s) := by
  cases a with
  | stopReq => exact h
  | worker =>
    show (workerStep cfg s).run.index =
      (workerStep cfg s).dispatched.getLast?.getD 0
    rw [workerStep_run cfg s, workerStep_dispatched cfg s]; exact h
  | ui =>
    show (uiStep cfg s).run.index =
      (uiStep cfg s).dispatched.getLast?.getD 0
    cases hq : s.queue with
    | nil => simp [uiStep, hq]; exact h
    | cons p rest =>
      cases p with
      | setTesting i => simp [uiStep, hq]; split <;> exact h
      | updateUI i st => simp [uiStep, hq]; split <;> exact h
      | runTask i =>
        simp [uiStep, hq, run_task_async]
        split
        · exact h
        · simp [List.getLast?_concat]

theorem idxInv_execFrom (cfg : RunCfg) (sched : List Act) :
    ∀ s : SysState, idxInv s → idxInv (execFrom cfg s sched) := by
  induction sched with
  | nil => intro s h; exact h
  | cons a rest ih => intro s h; exact ih _ (idxInv_step cfg a s h)

theorem idxInv_exec (cfg : RunCfg) (sched : List Act) :
    idxInv (exec cfg sched) := by
  refine idxInv_execFrom cfg sched _ ?_
  show (initState cfg).run.index = _
  unfold initState run_task_async
  split
  · rfl
  · simp [List.getLast?_concat]

theorem exec_append_stop (cfg : RunCfg) (pre : List Act) :
    (exec cfg (pre ++ [Act.stopReq])).run.stop_flag = true := by
  rw [exec, execFrom_append]
  rfl

/-! ### Claims -/

/-- C1.  The claim states that an actively refused probe yields
success=false, errorKind=Refused and errorDetail exactly
"Connection refused by remote host".  The code calls connect_ex, which
returns ECONNREFUSED as a nonzero code instead of raising, so a refused
probe takes the normal-return path of lines 39-45: success=false but
error text "UNSUCCESSFUL", with elapsed_ms present.  The except
ConnectionRefusedError branch carrying the claimed message (lines 51-53)
is unreachable for refusals; it, and the docstring of line 30, show the
claim matches the intended behaviour and the code is the slip.  First
conjunct: the code evaluated at the failing input.  Second conjunct: the
claimed message is produced only on the exception path that connect_ex
does not take for refusals. -/
theorem C1_refusal_behavior :
    _connect_to_host none (refusedEnv 5) =
      ⟨false, some 5, "UNSUCCESSFUL", false, true⟩ ∧
    _connect_to_host none ⟨.bindOk, .raiseRefused, 5⟩ =
      ⟨false, none, "Connection refused by remote host", false, false⟩ :=
  ⟨rfl, rfl⟩

/-- C2.  The claim states that a failed probe never carries an
elapsedMillis value.  On the connect_ex failure path (lines 39-45) the
code returns success=false together with elapsed_ms set, contradicting
its own docstring (line 30: elapsed_ms is None on failure).  The theorem
evaluates the code at a refused probe, the failing input. -/
theorem C2_failed_probe_has_elapsed :
    (_connect_to_host none (refusedEnv 7)).success = false ∧
    (_connect_to_host none (refusedEnv 7)).elapsed_ms = some 7 :=
  ⟨rfl, rfl⟩

/-- C3, counterexample.  The claim states that a stop requested while a
probe is in flight makes the completed probe result be discarded and
never reported.  Concretely: after [worker, ui, stopReq] the probe of
task 0 is still in flight (worker in phase probing) and stop_flag is
already set, yet draining the rest of the schedule delivers the
task-result notification for index 0 - update_ui (lines 246-259) never
consults stop_flag. -/
theorem C3_result_after_stop_cex :
    (exec cfgRefused [Act.worker, Act.ui, Act.stopReq]).worker =
      some (.probing 0) ∧
    (exec cfgRefused [Act.worker, Act.ui, Act.stopReq]).run.stop_flag = true ∧
    (exec cfgRefused stopMidProbeSched).notifs =
      [Notif.started 0, Notif.result 0 "UNSUCCESSFUL"] :=
  ⟨rfl, rfl, rfl⟩

/-- C3, amended.  If a stop is requested while the probe of task 0 is in
flight, the task-result notification for index 0 is still delivered to
the result surface (the result is not discarded); the stop only prevents
any further dispatch: the worker ends, the queue drains, and only index 0
was ever dispatched. -/
theorem C3_stop_mid_probe (cfg : RunCfg) (h : 0 < cfg.tasks.length) :
    (exec cfg stopMidProbeSched).notifs =
      [Notif.started 0, Notif.result 0 (statusOf cfg 0)] ∧
    (exec cfg stopMidProbeSched).worker = none ∧
    (exec cfg stopMidProbeSched).queue = [] ∧
    (exec cfg stopMidProbeSched).dispatched = [0] := by
  have h2 : exec cfg stopMidProbeSched =
      execFrom cfg (shapeA cfg 0) stopMidProbeSched := by
    rw [exec, initState_pos cfg h]
  rw [h2]
  simp [execFrom, stopMidProbeSched, step, workerStep, uiStep, shapeA,
    canonTrace, List.range_succ]

/-- C3, witness for the amended theorem at a concrete configuration. -/
theorem C3_stop_mid_probe_witness :
    0 < cfgRefused.tasks.length ∧
    (exec cfgRefused stopMidProbeSched).notifs =
      [Notif.started 0, Notif.result 0 (statusOf cfgRefused 0)] :=
  ⟨by decide, (C3_stop_mid_probe cfgRefused (by decide)).1⟩

/-- C4, counterexample.  The claim states that a run of N tasks with no
stop ends Stopped with currentIndex = N.  For a one-task run the drained
no-stop execution ends with run.index = 0, not 1 = len(tasks), and with
stop_flag still unset (nothing in the code marks natural completion):
the final run_task_async(…, 1, …) returns at its bounds check
(line 217) before updating run.index, and no state transition happens. -/
theorem C4_no_stopped_transition_cex :
    (exec cfgRefused (fullSched 1)).run.index = 0 ∧
    (exec cfgRefused (fullSched 1)).run.index ≠ cfgRefused.tasks.length ∧
    (exec cfgRefused (fullSched 1)).run.stop_flag = false :=
  ⟨rfl, by decide, rfl⟩

/-- C4, amended.  After the last task outcome of a never-stopped run is
handled and the run drains, run.index remains at len(tasks) - 1 (the
index of the last dispatched task, 0 for an empty list), stop_flag
remains false - the run never transitions to any stopped state - and the
full canonical notification trace was delivered. -/
theorem C4_completion_state (cfg : RunCfg) :
    (exec cfg (fullSched cfg.tasks.length)).run.index =
      cfg.tasks.length - 1 ∧
    (exec cfg (fullSched cfg.tasks.length)).run.stop_flag = false ∧
    (exec cfg (fullSched cfg.tasks.length)).notifs =
      canonTrace cfg cfg.tasks.length := by
  rw [exec_fullSched cfg]
  exact ⟨rfl, rfl, rfl⟩

/-- C5, counterexample.  The claim states that a registered run in state
Running or Stopping gets stop plus a deferred (100 ms) replacement, and
only a Stopped (or absent) run gets an immediate replacement.  A run
whose stop flag is set but whose dispatch has not yet halted is Stopping
in the sense of the spec, yet start_connectivity_check (line 157) tests
only stop_flag and registers the replacement immediately. -/
theorem C5_stopping_not_deferred_cex :
    specRunState ⟨true, false⟩ = RunState.Stopping ∧
    start_connectivity_check (some ⟨true, false⟩) =
      (some freshEntry, StartAction.registerNow) :=
  ⟨rfl, rfl⟩

/-- C5, amended.  The registry decision depends only on the stop flag of
the existing entry: a new run is created and registered immediately iff
the key has no entry or the entry has stop_flag set (whether its
dispatch has halted or not); if the entry has stop_flag unset, stop is
called on it and the replacement is scheduled after a fixed 100 ms grace
delay, and the re-invocation after that delay registers the new run. -/
theorem C5_registry_behavior (e? : Option RegEntry) :
    ((e? = none ∨ ∃ e, e? = some e ∧ e.stop_flag = true) →
      start_connectivity_check e? = (some freshEntry, .registerNow)) ∧
    (∀ e, e? = some e → e.stop_flag = false →
      start_connectivity_check e? =
        (some { e with stop_flag := true }, .stopAndRetry 100) ∧
      start_connectivity_check (some { e with stop_flag := true }) =
        (some freshEntry, .registerNow)) := by
  constructor
  · rintro (rfl | ⟨e, rfl, hf⟩)
    · rfl
    · simp [start_connectivity_check, hf]
  · rintro e rfl hf
    exact ⟨by simp [start_connectivity_check, hf],
      by simp [start_connectivity_check]⟩

/-- C5, witness for the amended theorem at a concrete Running entry. -/
theorem C5_registry_behavior_witness :
    start_connectivity_check (some ⟨false, false⟩) =
      (some ⟨true, false⟩, StartAction.stopAndRetry 100) ∧
    start_connectivity_check (some ⟨true, false⟩) =
      (some freshEntry, StartAction.registerNow) :=
  (C5_registry_behavior (some ⟨false, false⟩)).2 ⟨false, false⟩ rfl rfl

/-- C6.  With no stop request, every interleaving of the worker thread
and the Tk main thread delivers notifications that form a prefix of the
canonical trace started 0, result 0, started 1, result 1, ...; and the
draining schedule delivers exactly that trace for all len(tasks) indices.
Hence task-started indices appear exactly in order 0..N-1 with no gaps
or repeats, and started i and result i both precede started (i+1). -/
theorem C6_dispatch_order (cfg : RunCfg) :
    (∀ sched : List Act, Act.stopReq ∉ sched →
      (exec cfg sched).notifs <+: canonTrace cfg cfg.tasks.length) ∧
    (exec cfg (fullSched cfg.tasks.length)).notifs =
      canonTrace cfg cfg.tasks.length := by
  constructor
  · intro sched hs
    exact noStopInv_notifs_le cfg _
      (noStopInv_execFrom cfg sched hs _ (noStopInv_init cfg))
  · rw [exec_fullSched cfg]
    rfl

/-- C6, witness at a concrete two-task configuration and schedule. -/
theorem C6_dispatch_order_witness :
    Act.stopReq ∉ fullSched 2 ∧
    (exec cfgTwo (fullSched 2)).notifs <+: canonTrace cfgTwo 2 :=
  ⟨by decide, (C6_dispatch_order cfgTwo).1 (fullSched 2) (by decide)⟩

/-- C7.  Once a stop request has taken effect, no further schedule can
change run.index, dispatch any further task (the ghost dispatch trace is
frozen), or deliver any further task-started notification; moreover at
the moment of the stop run.index equals the most recently dispatched
index (or its initial value 0 if nothing was dispatched). -/
theorem C7_stop_freezes (cfg : RunCfg) (pre post : List Act) :
    (execFrom cfg (exec cfg (pre ++ [Act.stopReq])) post).run.index =
      (exec cfg (pre ++ [Act.stopReq])).run.index ∧
    (execFrom cfg (exec cfg (pre ++ [Act.stopReq])) post).dispatched =
      (exec cfg (pre ++ [Act.stopReq])).dispatched ∧
    startedOf
        (execFrom cfg (exec cfg (pre ++ [Act.stopReq])) post).notifs =
      startedOf (exec cfg (pre ++ [Act.stopReq])).notifs ∧
    (exec cfg (pre ++ [Act.stopReq])).run.index =
      (exec cfg (pre ++ [Act.stopReq])).dispatched.getLast?.getD 0 := by
  have hflag := exec_append_stop cfg pre
  have h := execFrom_stopped cfg post _ hflag
  refine ⟨?_, h.2.1, h.2.2, idxInv_exec cfg _⟩
  rw [h.1]

/-- C8, counterexample.  The claim states the socket is closed on every
exit path.  When a source IP is given and the bind raises, the except
branch (lines 55-57) returns without ever reaching sock.close()
(line 40): the descriptor is leaked on that exit. -/
theorem C8_socket_leak_cex :
    (_connect_to_host (some "10.0.0.5")
      ⟨.bindRaise "bind failed", .returns 0, 3⟩).sockClosed = false ∧
    (_connect_to_host (some "10.0.0.5")
      ⟨.bindRaise "bind failed", .returns 0, 3⟩).bindAttempted = true :=
  ⟨rfl, rfl⟩

/-- C8, amended.  The socket is closed before the probe returns exactly
on the normal exit path, where bind (when attempted) succeeds and
connect_ex returns an error indicator; on every exception path (bind
failure, raised timeout, raised refusal, any other raised error) the
function returns without closing the socket. -/
theorem C8_close_iff_normal_exit (source_ip : Option String)
    (env : ProbeEnv) :
    (_connect_to_host source_ip env).sockClosed = normalExit source_ip env := by
  rcases env with ⟨b, c, e⟩
  cases hb : pyTruthy source_ip <;> cases b <;> cases c <;>
    simp [_connect_to_host, normalExit, hb]

/-- C9, counterexample.  The claim states an out-of-range port is
signaled as a fault to the caller of start.  In the code, load_tasks
converts the Port column with a bare int() and no range check, so the
out-of-range port 70000 loads without any fault, the registry registers
the run normally, and the probe recovers the resulting OverflowError
into a per-probe failure outcome instead of propagating a fault. -/
theorem C9_invalid_port_recovered_cex :
    load_tasks [⟨"svc", "10.0.0.1", "70000"⟩] =
      .ok [⟨"svc", "10.0.0.1", 70000⟩] ∧
    start_connectivity_check none = (some freshEntry, .registerNow) ∧
    _connect_to_host none (invalidPortEnv 2) =
      ⟨false, none, "Error: port must be 0-65535.", false, false⟩ :=
  ⟨rfl, rfl, rfl⟩

/-- C9, amended.  An out-of-range port value is not validated at load or
start time: any integer Port column value yields a loaded task and no
fault reaches the caller of start; the out-of-range condition surfaces
only inside the probe, where the raised OverflowError is recovered
locally into a failure outcome with an Error: message.  Only a
non-integer Port column raises at load time. -/
theorem C9_port_range_not_checked (desc ip pstr : String) (p : Int)
    (rest : List CsvRow) (ts : List ProbeTask)
    (hp : pyInt pstr = .ok p) (hrest : load_tasks rest = .ok ts) :
    load_tasks (⟨desc, ip, pstr⟩ :: rest) = .ok (⟨desc, ip, p⟩ :: ts) ∧
    (∀ src : Option String, ∀ e : Nat,
      (_connect_to_host src (invalidPortEnv e)).success = false ∧
      (_connect_to_host src (invalidPortEnv e)).error_text =
        "Error: port must be 0-65535.") := by
  constructor
  · simp [load_tasks, hp, hrest]
    rfl
  · intro src e
    cases hb : pyTruthy src <;>
      simp [_connect_to_host, invalidPortEnv, hb]

/-- C9, witness for the amended theorem at a concrete row and probe. -/
theorem C9_port_range_not_checked_witness :
    load_tasks [⟨"svc", "10.0.0.2", "70000"⟩] =
      .ok [⟨"svc", "10.0.0.2", 70000⟩] ∧
    (_connect_to_host none (invalidPortEnv 4)).error_text =
      "Error: port must be 0-65535." := by
  have h := C9_port_range_not_checked "svc" "10.0.0.2" "70000" 70000 [] []
    rfl rfl
  exact ⟨h.1, (h.2 none 4).2⟩

/-- C10.  Passing the empty string as source IP behaves identically to
passing no source IP at all: the truthiness guard of line 37 rejects the
empty string, so no local bind is attempted and the whole probe result
is the same for every environment. -/
theorem C10_empty_source_ip (env : ProbeEnv) :
    _connect_to_host (some "") env = _connect_to_host none env ∧
    (_connect_to_host (some "") env).bindAttempted = false := by
  rcases env with ⟨b, c, e⟩
  cases c <;> exact ⟨rfl, rfl⟩
